import Mathlib

/-!
Shallow embedding of the StartupValuator valuation core
(`server/services/valuation_models`): `base.py`, `pre_seed.py`, `seed.py`,
`series_a.py`, `growth.py`, `engine.py`.

Modelling conventions:
* Python numbers are modelled as rational numbers (`ℚ`); exact rational
  arithmetic stands in for IEEE doubles, which is faithful for every
  formula and constant appearing in the source (all coefficients are
  short decimal literals). The Python `int`/`float` distinction is not
  modelled: a numeric input satisfies the schema's `type: float` check.
* A value that can sit in an input mapping is either a number or a
  string (`Value`); the mappings themselves are association lists with
  first-match lookup, a faithful model of `dict` for the read-only use
  the code makes of them.
* Code that can `raise` is embedded in `Except Err`; each runtime error
  the embedded code can produce is a constructor of `Err`
  (`ValueError` for invalid inputs and for domain checks,
  `ZeroDivisionError` for unguarded divisions, `TypeError` for a wrong
  number of arguments or a non-numeric value where `float()` is applied,
  `AttributeError` for a missing method). `float()` applied to a string
  is modelled as a `TypeError`; Python would parse a numeric string,
  a case no property below exercises.
* Divisions the Python code performs without a guard are modelled with
  an explicit zero test producing `Err.zeroDivision`, mirroring Python's
  `ZeroDivisionError`; divisions that sit behind a source-level guard
  (`churn <= 0`, `wacc <= growth_rate`, `ltv > 0`, `tam > 0`) use plain
  field division, whose denominator the guard has made non-zero.
* `growth.py` loads `data/region_risk.json`; the repository ships no such
  file, so the hardcoded fallback table in `_load_region_risk_data` is
  the table in effect and is embedded directly.
-/

/-- A Python runtime value that can appear in an input mapping. -/
inductive Value where
  | num (q : ℚ)
  | str (s : String)
deriving DecidableEq, Repr

/-- An input mapping (`Dict[str, Any]`), as an association list. -/
abbrev Inputs := List (String × Value)

/-- The runtime errors the embedded code can raise. -/
inductive Err where
  | invalidInput
  | domain (msg : String)
  | unsupportedStage
  | zeroDivision
  | typeError
  | attributeError
deriving DecidableEq, Repr

/-- `str(v)` for a runtime value. For numbers the precise rendering is
irrelevant below: it is only ever looked up in the region table, which
contains no numeric-looking keys. -/
def pyStr : Value → String
  | Value.str s => s
  | Value.num q => toString q

/-- `s.lower()`, as a character-wise map. `Char.toLower` only lowercases
ASCII, which covers every region key in the table; the full Unicode
behaviour of Python's `str.lower` is not needed below. -/
def pyLower (s : String) : String := String.mk (s.data.map Char.toLower)

/-- The declared type of a schema field (`'type': float` / `str`). -/
inductive FType where
  | float
  | string
deriving DecidableEq, Repr

/-- A per-field validation rule (`{type, min?, max?, description}`);
`ftype` embeds the dict key `'type'`. -/
structure FieldSchema where
  ftype : FType
  min : Option ℚ
  max : Option ℚ
  description : String
deriving DecidableEq, Repr

/-- The `isinstance(value, rules['type'])` check. -/
def isinstanceOf : Value → FType → Bool
  | Value.num _, FType.float => true
  | Value.str _, FType.string => true
  | _, _ => false

/-- One iteration of the validation loop that `pre_seed.py` and `seed.py`
share verbatim: presence, then `isinstance`, then `value < min`, then
`value > max`, short-circuiting on the first failure. `¬ (q < m)` is
written `m ≤ q`. -/
def checkField (inputs : Inputs) (field : String) (rules : FieldSchema) : Bool :=
  match inputs.lookup field with
  | none => false
  | some value =>
      isinstanceOf value rules.ftype &&
      (match value, rules.min with
       | Value.num q, some m => decide (m ≤ q)
       | _, _ => true) &&
      (match value, rules.max with
       | Value.num q, some m => decide (q ≤ m)
       | _, _ => true)

/-- The schema-driven validator: every declared field passes `checkField`. -/
def schemaValidate (fields : List (String × FieldSchema)) (inputs : Inputs) : Bool :=
  fields.all fun fr => checkField inputs fr.1 fr.2

namespace BaseValuationModel

/-- `base.py` `validate_inputs(inputs, required_fields)`: all required
fields are present. -/
def validate_inputs (inputs : Inputs) (required_fields : List String) : Bool :=
  required_fields.all fun field => (inputs.lookup field).isSome

end BaseValuationModel

/-- The result record every model returns (`base.py` `ValuationResult`). -/
structure ValuationResult where
  value : ℚ
  confidence : ℚ
  methodology : String
  risk_factors : List (String × ℚ)
deriving DecidableEq, Repr

namespace PreSeedModel

/-- `pre_seed.py` `self.weights` (tam 0.4 / team 0.6). -/
def weights_tam : ℚ := 0.4

def weights_team : ℚ := 0.6

/-- `pre_seed.py` `get_required_fields`. -/
def get_required_fields : List (String × FieldSchema) :=
  [("tam", ⟨FType.float, some 1000000, none, "Total Addressable Market in USD"⟩),
   ("team_score", ⟨FType.float, some 0, some 1, "Team capability score (0-1)"⟩),
   ("current_traction", ⟨FType.float, some 0, none, "Current revenue/user base"⟩)]

/-- `pre_seed.py` `validate_inputs` (the schema-driven loop). -/
def validate_inputs (inputs : Inputs) : Bool :=
  schemaValidate get_required_fields inputs

/-- `pre_seed.py` `scorecard_valuation`. -/
def scorecard_valuation (tam team_score : ℚ) : ℚ :=
  tam * weights_tam + team_score * 1000000 * weights_team

/-- `pre_seed.py` `market_risk`:
`1 - min(1, current_traction / tam if tam > 0 else 0)`. -/
def market_risk (current_traction tam : ℚ) : ℚ :=
  1 - min 1 (if 0 < tam then current_traction / tam else 0)

/-- `pre_seed.py` `calculate`. After validation every field is present
and numeric, so the fallback match arm is unreachable;
`inputs.get('current_traction', 0)` is the `getD`. -/
def calculate (inputs : Inputs) : Except Err ValuationResult :=
  if ¬ validate_inputs inputs then Except.error Err.invalidInput
  else
    match inputs.lookup "tam", inputs.lookup "team_score",
          (inputs.lookup "current_traction").getD (Value.num 0) with
    | some (Value.num tam), some (Value.num team_score), Value.num current_traction =>
      let valuation := scorecard_valuation tam team_score
      let market_risk_score := market_risk current_traction tam
      let risk_factors := [("market_risk", market_risk_score),
                           ("execution_risk", 1 - team_score)]
      let confidence := 0.7 * (1 - market_risk_score) + 0.3 * team_score
      Except.ok { value := valuation, confidence := confidence,
                  methodology := "Pre-Seed Scorecard", risk_factors := risk_factors }
    | _, _, _ => Except.error Err.typeError

end PreSeedModel

namespace SeedModel

/-- `seed.py` `self.default_multiple`. -/
def default_multiple : ℚ := 12

/-- `seed.py` `get_required_fields`. -/
def get_required_fields : List (String × FieldSchema) :=
  [("mrr", ⟨FType.float, some 10000, none, "Monthly Recurring Revenue in USD"⟩),
   ("mom_growth", ⟨FType.float, some 0, some 1, "Month over Month growth rate (as decimal)"⟩),
   ("churn", ⟨FType.float, some 0.01, some 1, "Monthly churn rate (as decimal)"⟩),
   ("cac", ⟨FType.float, some 0, none, "Customer Acquisition Cost in USD"⟩),
   ("ltv", ⟨FType.float, some 0, none, "Customer Lifetime Value in USD"⟩)]

/-- `seed.py` `validate_inputs` (the same schema-driven loop as pre-seed). -/
def validate_inputs (inputs : Inputs) : Bool :=
  schemaValidate get_required_fields inputs

/-- `seed.py` `bottom_up_dcf`. The division by `churn` sits behind the
`churn <= 0` guard. -/
def bottom_up_dcf (mrr mom_growth churn : ℚ) : Except Err ℚ :=
  if churn ≤ 0 then Except.error (Err.domain "Churn rate must be greater than 0")
  else
    let annual_revenue := mrr * (1 + mom_growth) ^ 12
    let multiple := default_multiple * (1 + mom_growth) / churn
    Except.ok (annual_revenue * multiple)

/-- `seed.py` `cac_ratio_alert`, reduced to the warning flag (the message
string is presentation only): `ratio = cac/ltv if ltv > 0 else inf`,
warning iff `ratio > 0.3`; an infinite ratio always warns. -/
def cac_ratio_alert (cac ltv : ℚ) : Bool :=
  if 0 < ltv then decide (0.3 < cac / ltv) else true

/-- `seed.py` `calculate`. After validation every field is present and
numeric, so the fallback match arm is unreachable; `1 + mom_growth > 0`
after validation, so the `growth_sustainability` division is safe, and
the `unit_economics` division sits behind its own `ltv > 0` guard. -/
def calculate (inputs : Inputs) : Except Err ValuationResult :=
  if ¬ validate_inputs inputs then Except.error Err.invalidInput
  else
    match inputs.lookup "mrr", inputs.lookup "mom_growth", inputs.lookup "churn",
          inputs.lookup "cac", inputs.lookup "ltv" with
    | some (Value.num mrr), some (Value.num mom_growth), some (Value.num churn),
      some (Value.num cac), some (Value.num ltv) =>
      match bottom_up_dcf mrr mom_growth churn with
      | Except.error e => Except.error e
      | Except.ok valuation =>
        let cac_warning := cac_ratio_alert cac ltv
        let churn_risk := min 1 (churn * 12)
        let growth_sustainability := 1 / (1 + mom_growth)
        let unit_economics := if 0 < ltv then cac / ltv else 1
        let risk_factors := [("churn_risk", churn_risk),
                             ("growth_sustainability", growth_sustainability),
                             ("unit_economics", unit_economics)]
        let base_confidence : ℚ := if cac_warning then 0.8 * 0.8 else 0.8
        let confidence :=
          base_confidence * (1 - (churn_risk + growth_sustainability + unit_economics) / 3)
        Except.ok { value := valuation, confidence := confidence,
                    methodology := "Seed Bottom-up DCF", risk_factors := risk_factors }
    | _, _, _, _, _ => Except.error Err.typeError

end SeedModel

namespace SeriesAModel

/-- `series_a.py` `self.dcf_weight`. -/
def dcf_weight : ℚ := 0.6

/-- `series_a.py` `self.comparable_weight`. -/
def comparable_weight : ℚ := 0.4

/-- `series_a.py` `hybrid_valuation`. -/
def hybrid_valuation (dcf_value comparable_value : ℚ) : ℚ :=
  dcf_value * dcf_weight + comparable_value * comparable_weight

/-- `series_a.py` `wacc_calculator`. -/
def wacc_calculator (equity_ratio debt_ratio cost_of_equity cost_of_debt tax_rate : ℚ) : ℚ :=
  equity_ratio * cost_of_equity + debt_ratio * cost_of_debt * (1 - tax_rate)

/-- `series_a.py` `calculate`'s `required_fields` list. -/
def required_fields : List String :=
  ["dcf_value", "comparable_value", "equity_ratio", "debt_ratio",
   "cost_of_equity", "cost_of_debt", "tax_rate"]

/-- `series_a.py` `calculate`. Validation is presence-only (the inherited
two-argument `base.py` validator). The `valuation_divergence` risk factor
divides by `max(dcf_value, comparable_value)` with no guard: a zero
maximum raises `ZeroDivisionError`, embedded as the explicit zero test.
The fallback match arm models `float()` on a non-numeric value. -/
def calculate (inputs : Inputs) : Except Err ValuationResult :=
  if ¬ BaseValuationModel.validate_inputs inputs required_fields then
    Except.error Err.invalidInput
  else
    match inputs.lookup "dcf_value", inputs.lookup "comparable_value",
          inputs.lookup "equity_ratio", inputs.lookup "debt_ratio",
          inputs.lookup "cost_of_equity", inputs.lookup "cost_of_debt",
          inputs.lookup "tax_rate" with
    | some (Value.num dcf_value), some (Value.num comparable_value),
      some (Value.num equity_ratio), some (Value.num debt_ratio),
      some (Value.num cost_of_equity), some (Value.num cost_of_debt),
      some (Value.num tax_rate) =>
      let wacc := wacc_calculator equity_ratio debt_ratio cost_of_equity cost_of_debt tax_rate
      let valuation := hybrid_valuation dcf_value comparable_value
      if max dcf_value comparable_value = 0 then Except.error Err.zeroDivision
      else
        let capital_structure_risk := debt_ratio
        let cost_of_capital_risk := wacc / 0.15
        let valuation_divergence :=
          |dcf_value - comparable_value| / max dcf_value comparable_value
        let risk_factors := [("capital_structure_risk", capital_structure_risk),
                             ("cost_of_capital_risk", cost_of_capital_risk),
                             ("valuation_divergence", valuation_divergence)]
        let confidence :=
          0.9 * (1 - (capital_structure_risk + cost_of_capital_risk + valuation_divergence) / 3)
        Except.ok { value := valuation, confidence := confidence,
                    methodology := "Series A Hybrid", risk_factors := risk_factors }
    | _, _, _, _, _, _, _ => Except.error Err.typeError

end SeriesAModel

namespace GrowthModel

/-- `growth.py` `_load_region_risk_data`: the repository ships no
`data/region_risk.json`, so the hardcoded fallback table is in effect. -/
def region_risk_data : List (String × ℚ) :=
  [("north_america", 1.0), ("europe", 0.9), ("asia_pacific", 0.85),
   ("latin_america", 0.8), ("africa", 0.75)]

/-- `growth.py` `terminal_value`: raises unless `wacc > growth_rate`;
the division sits behind that guard. -/
def terminal_value (fcf growth_rate wacc : ℚ) : Except Err ℚ :=
  if wacc ≤ growth_rate then
    Except.error (Err.domain "WACC must be greater than growth rate")
  else Except.ok (fcf * (1 + growth_rate) / (wacc - growth_rate))

/-- `growth.py` `region_risk_adjustment`: unknown regions fall back to a
0.8 multiplier. -/
def region_risk_adjustment (value : ℚ) (region : String) : ℚ :=
  value * ((region_risk_data.lookup (pyLower region)).getD 0.8)

/-- `growth.py` `calculate`'s `required_fields` list. -/
def required_fields : List String := ["fcf", "growth_rate", "wacc", "region"]

/-- `growth.py` `calculate`. Validation is presence-only. The
`growth_risk` factor divides by `wacc` and the `scale_risk` factor by
`1 + fcf/1e6`, both unguarded in the source: the explicit zero tests
model the resulting `ZeroDivisionError`s. `region` is already lowercased
when the risk dict reads the table, matching `str(...).lower()` followed
by the raw `region` lookup in the source. -/
def calculate (inputs : Inputs) : Except Err ValuationResult :=
  if ¬ BaseValuationModel.validate_inputs inputs required_fields then
    Except.error Err.invalidInput
  else
    match inputs.lookup "fcf", inputs.lookup "growth_rate",
          inputs.lookup "wacc", inputs.lookup "region" with
    | some (Value.num fcf), some (Value.num growth_rate),
      some (Value.num wacc), some vregion =>
      let region := pyLower (pyStr vregion)
      match terminal_value fcf growth_rate wacc with
      | Except.error e => Except.error e
      | Except.ok base_value =>
        let adjusted_value := region_risk_adjustment base_value region
        if wacc = 0 then Except.error Err.zeroDivision
        else
          let growth_risk := growth_rate / wacc
          let region_risk := 1 - ((region_risk_data.lookup region).getD 0.8)
          if 1 + fcf / 1000000 = 0 then Except.error Err.zeroDivision
          else
            let scale_risk := 1 / (1 + fcf / 1000000)
            let risk_factors := [("growth_risk", growth_risk),
                                 ("region_risk", region_risk),
                                 ("scale_risk", scale_risk)]
            let confidence := 0.85 * (1 - (growth_risk + region_risk + scale_risk) / 3)
            Except.ok { value := adjusted_value, confidence := confidence,
                        methodology := "Growth Terminal Value",
                        risk_factors := risk_factors }
    | _, _, _, _ => Except.error Err.typeError

end GrowthModel

namespace ValuationEngine

/-- The stage keys of `engine.py`'s `self.models` registry: `growth` is
not registered. -/
def stages : List String := ["pre_seed", "seed", "series_a"]

/-- `engine.py` `calculate_valuation`: `Unsupported stage` for a key
outside the registry, otherwise delegates to the stage's model. -/
def calculate_valuation (stage : String) (inputs : Inputs) : Except Err ValuationResult :=
  if stage = "pre_seed" then PreSeedModel.calculate inputs
  else if stage = "seed" then SeedModel.calculate inputs
  else if stage = "series_a" then SeriesAModel.calculate inputs
  else Except.error Err.unsupportedStage

/-- `engine.py` `validate_inputs`: false for an unknown stage, otherwise
`self.models[stage].validate_inputs(inputs)`. `SeriesAModel` does not
override `validate_inputs`, so the single-argument call lands on the
two-argument `base.py` method and raises `TypeError` (missing
`required_fields`), embedded as `Err.typeError`. -/
def validate_inputs (stage : String) (inputs : Inputs) : Except Err Bool :=
  if stage = "pre_seed" then Except.ok (PreSeedModel.validate_inputs inputs)
  else if stage = "seed" then Except.ok (SeedModel.validate_inputs inputs)
  else if stage = "series_a" then Except.error Err.typeError
  else Except.ok false

/-- `engine.py` `get_required_fields`: `Unsupported stage` for an unknown
key; `SeriesAModel` defines no `get_required_fields`, so delegation to it
raises `AttributeError`. -/
def get_required_fields (stage : String) : Except Err (List (String × FieldSchema)) :=
  if stage = "pre_seed" then Except.ok PreSeedModel.get_required_fields
  else if stage = "seed" then Except.ok SeedModel.get_required_fields
  else if stage = "series_a" then Except.error Err.attributeError
  else Except.error Err.unsupportedStage

end ValuationEngine

/-- The test input of `tests/test_pre_seed.py` and of spec §8. -/
def preSeedExample : Inputs :=
  [("tam", Value.num 5000000), ("team_score", Value.num 0.8),
   ("current_traction", Value.num 100000)]

example : PreSeedModel.validate_inputs preSeedExample = true := by
  simp [PreSeedModel.validate_inputs, schemaValidate, checkField,
    PreSeedModel.get_required_fields, preSeedExample, List.lookup, isinstanceOf]
  norm_num

example : PreSeedModel.calculate preSeedExample =
    Except.ok { value := 2480000, confidence := 0.254,
                methodology := "Pre-Seed Scorecard",
                risk_factors := [("market_risk", 0.98), ("execution_risk", 0.2)] } := by
  simp [PreSeedModel.calculate, PreSeedModel.validate_inputs, schemaValidate,
    checkField, PreSeedModel.get_required_fields, preSeedExample, List.lookup,
    isinstanceOf, PreSeedModel.scorecard_valuation, PreSeedModel.market_risk,
    PreSeedModel.weights_tam, PreSeedModel.weights_team]
  norm_num

/-- The minimal valid seed input of spec §8. -/
def seedExample : Inputs :=
  [("mrr", Value.num 50000), ("mom_growth", Value.num 0.1),
   ("churn", Value.num 0.05), ("cac", Value.num 500), ("ltv", Value.num 2000)]

/-- The minimal valid series-A input of spec §8. -/
def seriesAExample : Inputs :=
  [("dcf_value", Value.num 10000000), ("comparable_value", Value.num 8000000),
   ("equity_ratio", Value.num 0.7), ("debt_ratio", Value.num 0.3),
   ("cost_of_equity", Value.num 0.12), ("cost_of_debt", Value.num 0.06),
   ("tax_rate", Value.num 0.25)]

/-- The growth example of spec §8. -/
def growthExample : Inputs :=
  [("fcf", Value.num 1000000), ("growth_rate", Value.num 0.03),
   ("wacc", Value.num 0.1), ("region", Value.str "europe")]

/-- A series-A input with all seven required fields present but both
valuations zero: presence-only validation passes, the divergence
denominator `max(dcf_value, comparable_value)` is zero. -/
def seriesAZeroExample : Inputs :=
  [("dcf_value", Value.num 0), ("comparable_value", Value.num 0),
   ("equity_ratio", Value.num 0.7), ("debt_ratio", Value.num 0.3),
   ("cost_of_equity", Value.num 0.12), ("cost_of_debt", Value.num 0.06),
   ("tax_rate", Value.num 0.25)]

/-- A growth input whose terminal-value precondition holds
(`wacc = 0 > growth_rate = -0.5`) but whose `growth_risk` division
`growth_rate / wacc` divides by zero. -/
def growthZeroWaccExample : Inputs :=
  [("fcf", Value.num 1000000), ("growth_rate", Value.num (-0.5)),
   ("wacc", Value.num 0), ("region", Value.str "europe")]

/-- A pre-seed input with valid `tam` and `team_score` but no
`current_traction` key. -/
def preSeedNoTraction : Inputs :=
  [("tam", Value.num 5000000), ("team_score", Value.num 0.8)]

example : SeedModel.validate_inputs seedExample = true := by
  simp [SeedModel.validate_inputs, schemaValidate, checkField,
    SeedModel.get_required_fields, seedExample, List.lookup, isinstanceOf]
  norm_num

example : SeriesAModel.calculate seriesAExample =
    Except.ok { value := 9200000, confidence := 0.9 * (1 - (0.3 + 0.65 + 0.2) / 3),
                methodology := "Series A Hybrid",
                risk_factors := [("capital_structure_risk", 0.3),
                                 ("cost_of_capital_risk", 0.65),
                                 ("valuation_divergence", 0.2)] } := by
  simp [SeriesAModel.calculate, BaseValuationModel.validate_inputs,
    SeriesAModel.required_fields, seriesAExample, List.lookup,
    SeriesAModel.hybrid_valuation, SeriesAModel.wacc_calculator,
    SeriesAModel.dcf_weight, SeriesAModel.comparable_weight]
  norm_num

example : GrowthModel.calculate growthExample =
    Except.ok { value := 92700000 / 7,
                confidence := 0.85 * (1 - (0.3 + 0.1 + 0.5) / 3),
                methodology := "Growth Terminal Value",
                risk_factors := [("growth_risk", 0.3), ("region_risk", 0.1),
                                 ("scale_risk", 0.5)] } := by
  simp [GrowthModel.calculate, BaseValuationModel.validate_inputs,
    GrowthModel.required_fields, growthExample, List.lookup, pyStr,
    GrowthModel.terminal_value, GrowthModel.region_risk_adjustment,
    GrowthModel.region_risk_data,
    (by decide : pyLower "europe" = "europe")]
  norm_num

/-! ### Helper lemmas for the schema-driven validator -/

theorem schemaValidate_mem {fields : List (String × FieldSchema)} {inputs : Inputs}
    (h : schemaValidate fields inputs = true) {f : String} {r : FieldSchema}
    (hm : (f, r) ∈ fields) : checkField inputs f r = true := by
  rw [schemaValidate, List.all_eq_true] at h
  exact h _ hm

theorem checkField_float {inputs : Inputs} {f : String} {r : FieldSchema}
    (hr : r.ftype = FType.float) (h : checkField inputs f r = true) :
    ∃ q, inputs.lookup f = some (Value.num q) ∧
      (∀ m, r.min = some m → m ≤ q) ∧ (∀ m, r.max = some m → q ≤ m) := by
  rw [checkField] at h
  cases hl : inputs.lookup f with
  | none => rw [hl] at h; exact absurd h (by simp)
  | some v =>
    rw [hl] at h
    cases v with
    | str s => rw [hr] at h; simp [isinstanceOf] at h
    | num q =>
      refine ⟨q, rfl, ?_, ?_⟩ <;> intro m hm <;> rw [hm] at h <;>
        simp only [Bool.and_eq_true, decide_eq_true_eq] at h
      · exact h.1.2
      · exact h.2

/-! ### C1 -/

/-- C1 (counterexample): the claim says the engine dispatches the stage
key "growth" to the GrowthModel and returns its ValuationResult. It does
not: `engine.py`'s registry holds only pre_seed, seed and series_a, so at
the concrete valid growth input of spec §8 `calculate_valuation` fails
with the Unsupported-Stage error (while `GrowthModel.calculate` itself
would succeed on that input). -/
theorem engine_growth_stage_rejected_at_example :
    ValuationEngine.calculate_valuation "growth" growthExample =
      Except.error Err.unsupportedStage ∧
    (¬ ∃ r, ValuationEngine.calculate_valuation "growth" growthExample = Except.ok r) ∧
    (∃ r, GrowthModel.calculate growthExample = Except.ok r) := by
  refine ⟨rfl, by simp [ValuationEngine.calculate_valuation], ?_⟩
  refine ⟨{ value := 92700000 / 7, confidence := 0.85 * (1 - (0.3 + 0.1 + 0.5) / 3),
            methodology := "Growth Terminal Value",
            risk_factors := [("growth_risk", 0.3), ("region_risk", 0.1),
                             ("scale_risk", 0.5)] }, ?_⟩
  simp [GrowthModel.calculate, BaseValuationModel.validate_inputs,
    GrowthModel.required_fields, growthExample, List.lookup, pyStr,
    GrowthModel.terminal_value, GrowthModel.region_risk_adjustment,
    GrowthModel.region_risk_data,
    (by decide : pyLower "europe" = "europe")]
  norm_num

/-- C1 (amended): "growth" is not a stage key of the engine's registry:
for every input mapping, `calculate_valuation("growth", inputs)` fails
with the Unsupported-Stage error. -/
theorem engine_growth_stage_always_unsupported (inputs : Inputs) :
    ValuationEngine.calculate_valuation "growth" inputs =
      Except.error Err.unsupportedStage := rfl

/-! ### C2 -/

/-- C2 (code bug): the claim (and `engine.py`'s own docstring) says
`validate_inputs(stage, inputs)` returns a bool for every registered
stage. For the registered stage "series_a" the delegated call
`self.models['series_a'].validate_inputs(inputs)` lands on the inherited
two-argument `base.py` method with its `required_fields` parameter
missing, so it raises `TypeError` instead of returning a bool — here at
the minimal valid series-A example of spec §8 (and indeed at every input
mapping). -/
theorem engine_validate_series_a_raises :
    ValuationEngine.validate_inputs "series_a" seriesAExample =
      Except.error Err.typeError ∧
    (∀ inputs : Inputs, ValuationEngine.validate_inputs "series_a" inputs =
      Except.error Err.typeError) := ⟨rfl, fun _ => rfl⟩

/-! ### C7 -/

/-- C7 (code bug): the claim (with spec §4.2) says `current_traction` is
optional with default 0, so a mapping with valid `tam` and `team_score`
but no `current_traction` key should pass validation and be calculated
with traction 0. The code's `validate_inputs` lists `current_traction`
among the required fields and rejects the mapping, so `calculate` raises
Invalid-Input and the `inputs.get('current_traction', 0)` default in
`calculate` is unreachable. -/
theorem preseed_missing_traction_rejected :
    PreSeedModel.validate_inputs preSeedNoTraction = false ∧
    PreSeedModel.calculate preSeedNoTraction = Except.error Err.invalidInput := by
  have hv : PreSeedModel.validate_inputs preSeedNoTraction = false := by
    simp [PreSeedModel.validate_inputs, schemaValidate, checkField,
      PreSeedModel.get_required_fields, preSeedNoTraction, List.lookup,
      isinstanceOf]
  exact ⟨hv, by simp [PreSeedModel.calculate, hv]⟩

/-! ### C10 -/

/-- C10: `SeriesAModel.calculate` is partial beyond the documented error
taxonomy: the all-zero-valuations input passes the presence-only
validation, yet the `valuation_divergence` risk factor divides by
`max(dcf_value, comparable_value) = 0` and `calculate` fails with a
division-by-zero error that is neither Invalid-Input nor a Domain
error. -/
theorem series_a_zero_divergence_divide :
    BaseValuationModel.validate_inputs seriesAZeroExample SeriesAModel.required_fields = true ∧
    SeriesAModel.calculate seriesAZeroExample = Except.error Err.zeroDivision ∧
    Err.zeroDivision ≠ Err.invalidInput ∧
    (∀ msg, Err.zeroDivision ≠ Err.domain msg) := by
  refine ⟨by simp [BaseValuationModel.validate_inputs, SeriesAModel.required_fields,
    seriesAZeroExample, List.lookup], ?_, by simp, by simp⟩
  simp [SeriesAModel.calculate, BaseValuationModel.validate_inputs,
    SeriesAModel.required_fields, seriesAZeroExample, List.lookup]

/-! ### Evaluation lemmas for the schema-validated models -/

/-- Evaluation of `pre_seed.py` `calculate` on any input passing its
validation: the third required field exists, all bounds hold, and the
result is the scorecard record. -/
theorem preseed_calculate_eval {inputs : Inputs} {tam team_score : ℚ}
    (h1 : inputs.lookup "tam" = some (Value.num tam))
    (h2 : inputs.lookup "team_score" = some (Value.num team_score))
    (hv : PreSeedModel.validate_inputs inputs = true) :
    ∃ ct, inputs.lookup "current_traction" = some (Value.num ct) ∧ 0 ≤ ct ∧
      1000000 ≤ tam ∧ 0 ≤ team_score ∧ team_score ≤ 1 ∧
      PreSeedModel.calculate inputs = Except.ok
        { value := PreSeedModel.scorecard_valuation tam team_score,
          confidence := 0.7 * (1 - PreSeedModel.market_risk ct tam) + 0.3 * team_score,
          methodology := "Pre-Seed Scorecard",
          risk_factors := [("market_risk", PreSeedModel.market_risk ct tam),
                           ("execution_risk", 1 - team_score)] } := by
  obtain ⟨q1, hq1, hmin1, -⟩ := checkField_float rfl (schemaValidate_mem hv
    (show ("tam", ⟨FType.float, some 1000000, none, "Total Addressable Market in USD"⟩) ∈
      PreSeedModel.get_required_fields by simp [PreSeedModel.get_required_fields]))
  obtain ⟨q2, hq2, hmin2, hmax2⟩ := checkField_float rfl (schemaValidate_mem hv
    (show ("team_score", ⟨FType.float, some 0, some 1, "Team capability score (0-1)"⟩) ∈
      PreSeedModel.get_required_fields by simp [PreSeedModel.get_required_fields]))
  obtain ⟨ct, hct, hminct, -⟩ := checkField_float rfl (schemaValidate_mem hv
    (show ("current_traction", ⟨FType.float, some 0, none, "Current revenue/user base"⟩) ∈
      PreSeedModel.get_required_fields by simp [PreSeedModel.get_required_fields]))
  rw [h1, Option.some.injEq, Value.num.injEq] at hq1
  rw [h2, Option.some.injEq, Value.num.injEq] at hq2
  subst hq1; subst hq2
  refine ⟨ct, hct, hminct 0 rfl, hmin1 1000000 rfl, hmin2 0 rfl, hmax2 1 rfl, ?_⟩
  simp [PreSeedModel.calculate, hv, h1, h2, hct]

/-- Evaluation of `seed.py` `calculate` on any input passing its
validation: all schema bounds hold and the result is the bottom-up-DCF
record (the `churn <= 0` branch cannot fire since `churn >= 0.01`). -/
theorem seed_calculate_eval {inputs : Inputs} {mrr mom_growth churn cac ltv : ℚ}
    (h1 : inputs.lookup "mrr" = some (Value.num mrr))
    (h2 : inputs.lookup "mom_growth" = some (Value.num mom_growth))
    (h3 : inputs.lookup "churn" = some (Value.num churn))
    (h4 : inputs.lookup "cac" = some (Value.num cac))
    (h5 : inputs.lookup "ltv" = some (Value.num ltv))
    (hv : SeedModel.validate_inputs inputs = true) :
    10000 ≤ mrr ∧ 0 ≤ mom_growth ∧ mom_growth ≤ 1 ∧
    (0.01 : ℚ) ≤ churn ∧ churn ≤ 1 ∧ 0 ≤ cac ∧ 0 ≤ ltv ∧
    SeedModel.calculate inputs = Except.ok
      { value := (mrr * (1 + mom_growth) ^ 12) *
                 (SeedModel.default_multiple * (1 + mom_growth) / churn),
        confidence := (if SeedModel.cac_ratio_alert cac ltv then (0.8 : ℚ) * 0.8 else 0.8) *
          (1 - (min 1 (churn * 12) + 1 / (1 + mom_growth) +
                (if 0 < ltv then cac / ltv else 1)) / 3),
        methodology := "Seed Bottom-up DCF",
        risk_factors := [("churn_risk", min 1 (churn * 12)),
                         ("growth_sustainability", 1 / (1 + mom_growth)),
                         ("unit_economics", if 0 < ltv then cac / ltv else 1)] } := by
  obtain ⟨q1, hq1, hb1, -⟩ := checkField_float rfl (schemaValidate_mem hv
    (show ("mrr", ⟨FType.float, some 10000, none, "Monthly Recurring Revenue in USD"⟩) ∈
      SeedModel.get_required_fields by simp [SeedModel.get_required_fields]))
  obtain ⟨q2, hq2, hb2, hc2⟩ := checkField_float rfl (schemaValidate_mem hv
    (show ("mom_growth", ⟨FType.float, some 0, some 1,
        "Month over Month growth rate (as decimal)"⟩) ∈
      SeedModel.get_required_fields by simp [SeedModel.get_required_fields]))
  obtain ⟨q3, hq3, hb3, hc3⟩ := checkField_float rfl (schemaValidate_mem hv
    (show ("churn", ⟨FType.float, some 0.01, some 1, "Monthly churn rate (as decimal)"⟩) ∈
      SeedModel.get_required_fields by simp [SeedModel.get_required_fields]))
  obtain ⟨q4, hq4, hb4, -⟩ := checkField_float rfl (schemaValidate_mem hv
    (show ("cac", ⟨FType.float, some 0, none, "Customer Acquisition Cost in USD"⟩) ∈
      SeedModel.get_required_fields by simp [SeedModel.get_required_fields]))
  obtain ⟨q5, hq5, hb5, -⟩ := checkField_float rfl (schemaValidate_mem hv
    (show ("ltv", ⟨FType.float, some 0, none, "Customer Lifetime Value in USD"⟩) ∈
      SeedModel.get_required_fields by simp [SeedModel.get_required_fields]))
  rw [h1, Option.some.injEq, Value.num.injEq] at hq1
  rw [h2, Option.some.injEq, Value.num.injEq] at hq2
  rw [h3, Option.some.injEq, Value.num.injEq] at hq3
  rw [h4, Option.some.injEq, Value.num.injEq] at hq4
  rw [h5, Option.some.injEq, Value.num.injEq] at hq5
  subst hq1; subst hq2; subst hq3; subst hq4; subst hq5
  have hchurn01 : (0.01 : ℚ) ≤ churn := hb3 0.01 rfl
  have hchurnpos : ¬ churn ≤ 0 := by
    simp only [not_le]
    calc (0 : ℚ) < 0.01 := by norm_num
      _ ≤ churn := hchurn01
  refine ⟨hb1 10000 rfl, hb2 0 rfl, hc2 1 rfl, hchurn01, hc3 1 rfl,
    hb4 0 rfl, hb5 0 rfl, ?_⟩
  simp [SeedModel.calculate, hv, h1, h2, h3, h4, h5, SeedModel.bottom_up_dcf, hchurnpos]

/-! ### C3 -/

/-- C3: at tam = 5,000,000, team_score = 0.8, current_traction = 100,000
the pre-seed scorecard returns value 5,000,000*0.4 + 0.8*1,000,000*0.6 =
2,480,000 with methodology "Pre-Seed Scorecard", confidence in (0,1] and
exactly the risk-factor keys market_risk and execution_risk, each in
[0,1]; and in general, on any input passing validation, the value is
tam*0.4 + team_score*1,000,000*0.6. -/
theorem preseed_scorecard_value :
    (∃ r, PreSeedModel.calculate preSeedExample = Except.ok r ∧
       r.value = 2480000 ∧ r.methodology = "Pre-Seed Scorecard" ∧
       0 < r.confidence ∧ r.confidence ≤ 1 ∧
       r.risk_factors.map Prod.fst = ["market_risk", "execution_risk"] ∧
       (∀ p ∈ r.risk_factors, 0 ≤ p.2 ∧ p.2 ≤ 1)) ∧
    (∀ (inputs : Inputs) (tam team_score : ℚ),
       inputs.lookup "tam" = some (Value.num tam) →
       inputs.lookup "team_score" = some (Value.num team_score) →
       PreSeedModel.validate_inputs inputs = true →
       ∃ r, PreSeedModel.calculate inputs = Except.ok r ∧
         r.value = tam * 0.4 + team_score * 1000000 * 0.6) := by
  constructor
  · refine ⟨{ value := 2480000, confidence := 0.254,
              methodology := "Pre-Seed Scorecard",
              risk_factors := [("market_risk", 0.98), ("execution_risk", 0.2)] },
      ?_, rfl, rfl, by norm_num, by norm_num, by simp, ?_⟩
    · simp [PreSeedModel.calculate, PreSeedModel.validate_inputs, schemaValidate,
        checkField, PreSeedModel.get_required_fields, preSeedExample, List.lookup,
        isinstanceOf, PreSeedModel.scorecard_valuation, PreSeedModel.market_risk,
        PreSeedModel.weights_tam, PreSeedModel.weights_team]
      norm_num
    · intro p hp
      simp only [List.mem_cons, List.not_mem_nil, or_false] at hp
      rcases hp with h | h <;> subst h <;> constructor <;> norm_num
  · intro inputs tam team_score h1 h2 hv
    obtain ⟨ct, hct, hct0, htam, hts0, hts1, hcalc⟩ := preseed_calculate_eval h1 h2 hv
    exact ⟨_, hcalc, by simp [PreSeedModel.scorecard_valuation,
      PreSeedModel.weights_tam, PreSeedModel.weights_team]⟩

/-- C3 witness: the general formula of the theorem instantiated at the
§8 example input. -/
theorem preseed_scorecard_value_witness :
    preSeedExample.lookup "tam" = some (Value.num 5000000) ∧
    preSeedExample.lookup "team_score" = some (Value.num 0.8) ∧
    PreSeedModel.validate_inputs preSeedExample = true ∧
    (∃ r, PreSeedModel.calculate preSeedExample = Except.ok r ∧
       r.value = 5000000 * 0.4 + 0.8 * 1000000 * 0.6) := by
  have hv : PreSeedModel.validate_inputs preSeedExample = true := by
    simp [PreSeedModel.validate_inputs, schemaValidate, checkField,
      PreSeedModel.get_required_fields, preSeedExample, List.lookup, isinstanceOf]
    norm_num
  refine ⟨by simp [preSeedExample, List.lookup], by simp [preSeedExample, List.lookup],
    hv, preseed_scorecard_value.2 preSeedExample 5000000 0.8
      (by simp [preSeedExample, List.lookup]) (by simp [preSeedExample, List.lookup]) hv⟩

/-! ### C4 -/

/-- C4: on every input passing seed validation the value is
(mrr*(1+mom_growth)^12) * (12*(1+mom_growth)/churn) and the confidence
is base_confidence * (1 - mean of the three risk factors churn_risk,
growth_sustainability and unit_economics), where base_confidence is 0.64
exactly when cac/ltv > 0.3 — the ratio treated as infinite when
ltv = 0 — and 0.8 otherwise. -/
theorem seed_value_and_confidence (inputs : Inputs) (mrr mom_growth churn cac ltv : ℚ)
    (h1 : inputs.lookup "mrr" = some (Value.num mrr))
    (h2 : inputs.lookup "mom_growth" = some (Value.num mom_growth))
    (h3 : inputs.lookup "churn" = some (Value.num churn))
    (h4 : inputs.lookup "cac" = some (Value.num cac))
    (h5 : inputs.lookup "ltv" = some (Value.num ltv))
    (hv : SeedModel.validate_inputs inputs = true) :
    ∃ r, SeedModel.calculate inputs = Except.ok r ∧
      r.value = (mrr * (1 + mom_growth) ^ 12) * (12 * (1 + mom_growth) / churn) ∧
      r.risk_factors = [("churn_risk", min 1 (churn * 12)),
                        ("growth_sustainability", 1 / (1 + mom_growth)),
                        ("unit_economics", if 0 < ltv then cac / ltv else 1)] ∧
      r.confidence = (if ltv = 0 ∨ 0.3 < cac / ltv then (0.64 : ℚ) else 0.8) *
        (1 - (r.risk_factors.map Prod.snd).sum / 3) := by
  obtain ⟨hmrr, hg0, hg1, hch, hch1, hcac, hltv, hcalc⟩ :=
    seed_calculate_eval h1 h2 h3 h4 h5 hv
  refine ⟨_, hcalc, ?_, rfl, ?_⟩
  · simp [SeedModel.default_multiple]
  · have hbase : (if SeedModel.cac_ratio_alert cac ltv then (0.8 : ℚ) * 0.8 else 0.8) =
        (if ltv = 0 ∨ (0.3 : ℚ) < cac / ltv then (0.64 : ℚ) else 0.8) := by
      rw [SeedModel.cac_ratio_alert]
      rcases eq_or_lt_of_le hltv with hz | hpos
      · rw [← hz]
        norm_num
      · rw [if_pos hpos]
        by_cases hratio : (0.3 : ℚ) < cac / ltv
        · rw [if_pos (by simpa using hratio), if_pos (Or.inr hratio)]
          norm_num
        · rw [if_neg (by simpa using hratio),
            if_neg (by rintro (h | h);
                       exacts [absurd h (ne_of_gt hpos), hratio h])]
    simp only [List.map_cons, List.map_nil, List.sum_cons, List.sum_nil,
      add_zero, ← add_assoc, hbase]

/-- C4 witness: the theorem instantiated at the minimal valid seed
example of §8 (mrr = 50,000, mom_growth = 0.1, churn = 0.05, cac = 500,
ltv = 2000). -/
theorem seed_value_and_confidence_witness :
    SeedModel.validate_inputs seedExample = true ∧
    (∃ r, SeedModel.calculate seedExample = Except.ok r ∧
       r.value = (50000 * (1 + 0.1) ^ 12) * (12 * (1 + 0.1) / 0.05) ∧
       r.risk_factors = [("churn_risk", min 1 (0.05 * 12)),
                         ("growth_sustainability", 1 / (1 + 0.1)),
                         ("unit_economics", if (0 : ℚ) < 2000 then 500 / 2000 else 1)] ∧
       r.confidence = (if (2000 : ℚ) = 0 ∨ (0.3 : ℚ) < 500 / 2000 then (0.64 : ℚ) else 0.8) *
         (1 - (r.risk_factors.map Prod.snd).sum / 3)) := by
  have hv : SeedModel.validate_inputs seedExample = true := by
    simp [SeedModel.validate_inputs, schemaValidate, checkField,
      SeedModel.get_required_fields, seedExample, List.lookup, isinstanceOf]
    norm_num
  exact ⟨hv, seed_value_and_confidence seedExample 50000 0.1 0.05 500 2000
    (by simp [seedExample, List.lookup]) (by simp [seedExample, List.lookup])
    (by simp [seedExample, List.lookup]) (by simp [seedExample, List.lookup])
    (by simp [seedExample, List.lookup]) hv⟩

/-! ### C8 -/

/-- C8: every input passing seed validation has churn ≥ 0.01, so the
defensive "Churn rate must be greater than 0" branch in `bottom_up_dcf`
cannot fire: `calculate` succeeds and in particular never returns a
Domain error. -/
theorem seed_churn_guard_unreachable (inputs : Inputs)
    (hv : SeedModel.validate_inputs inputs = true) :
    (∃ churn, inputs.lookup "churn" = some (Value.num churn) ∧
       (0.01 : ℚ) ≤ churn ∧ ¬ churn ≤ 0) ∧
    (∃ r, SeedModel.calculate inputs = Except.ok r) ∧
    (∀ msg, SeedModel.calculate inputs ≠ Except.error (Err.domain msg)) := by
  obtain ⟨q1, hq1, -, -⟩ := checkField_float rfl (schemaValidate_mem hv
    (show ("mrr", ⟨FType.float, some 10000, none, "Monthly Recurring Revenue in USD"⟩) ∈
      SeedModel.get_required_fields by simp [SeedModel.get_required_fields]))
  obtain ⟨q2, hq2, -, -⟩ := checkField_float rfl (schemaValidate_mem hv
    (show ("mom_growth", ⟨FType.float, some 0, some 1,
        "Month over Month growth rate (as decimal)"⟩) ∈
      SeedModel.get_required_fields by simp [SeedModel.get_required_fields]))
  obtain ⟨q3, hq3, -, -⟩ := checkField_float rfl (schemaValidate_mem hv
    (show ("churn", ⟨FType.float, some 0.01, some 1, "Monthly churn rate (as decimal)"⟩) ∈
      SeedModel.get_required_fields by simp [SeedModel.get_required_fields]))
  obtain ⟨q4, hq4, -, -⟩ := checkField_float rfl (schemaValidate_mem hv
    (show ("cac", ⟨FType.float, some 0, none, "Customer Acquisition Cost in USD"⟩) ∈
      SeedModel.get_required_fields by simp [SeedModel.get_required_fields]))
  obtain ⟨q5, hq5, -, -⟩ := checkField_float rfl (schemaValidate_mem hv
    (show ("ltv", ⟨FType.float, some 0, none, "Customer Lifetime Value in USD"⟩) ∈
      SeedModel.get_required_fields by simp [SeedModel.get_required_fields]))
  obtain ⟨-, -, -, hch, -, -, -, hcalc⟩ := seed_calculate_eval hq1 hq2 hq3 hq4 hq5 hv
  refine ⟨⟨q3, hq3, hch, by intro h; nlinarith⟩, ⟨_, hcalc⟩, ?_⟩
  intro msg h
  rw [hcalc] at h
  exact Except.noConfusion h

/-- C8 witness: the theorem applied at the minimal valid seed example. -/
theorem seed_churn_guard_unreachable_witness :
    SeedModel.validate_inputs seedExample = true ∧
    ((∃ churn, seedExample.lookup "churn" = some (Value.num churn) ∧
        (0.01 : ℚ) ≤ churn ∧ ¬ churn ≤ 0) ∧
     (∃ r, SeedModel.calculate seedExample = Except.ok r) ∧
     (∀ msg, SeedModel.calculate seedExample ≠ Except.error (Err.domain msg))) := by
  have hv : SeedModel.validate_inputs seedExample = true := by
    simp [SeedModel.validate_inputs, schemaValidate, checkField,
      SeedModel.get_required_fields, seedExample, List.lookup, isinstanceOf]
    norm_num
  exact ⟨hv, seed_churn_guard_unreachable seedExample hv⟩

/-! ### C5 -/

/-- C5 (counterexample): the claim quantifies over every input mapping
containing the seven required fields, but at the all-zero-valuations
input `calculate` raises ZeroDivisionError (divergence denominator
`max(dcf_value, comparable_value) = 0`) instead of returning the value
0*0.6 + 0*0.4. -/
theorem series_a_hybrid_fails_at_zero :
    SeriesAModel.calculate seriesAZeroExample = Except.error Err.zeroDivision ∧
    ¬ ∃ r, SeriesAModel.calculate seriesAZeroExample = Except.ok r ∧
        r.value = 0 * 0.6 + 0 * 0.4 := by
  have h : SeriesAModel.calculate seriesAZeroExample = Except.error Err.zeroDivision := by
    simp [SeriesAModel.calculate, BaseValuationModel.validate_inputs,
      SeriesAModel.required_fields, seriesAZeroExample, List.lookup]
  refine ⟨h, ?_⟩
  rintro ⟨r, hr, -⟩
  rw [h] at hr
  exact Except.noConfusion hr

/-- C5 (amended): on every input mapping carrying the seven required
series-A fields as numbers and whose two valuations do not both vanish
(max(dcf_value, comparable_value) ≠ 0), `calculate` returns
value = dcf_value*0.6 + comparable_value*0.4; the computed WACC does not
enter the value — it appears only in the cost_of_capital_risk factor of
the risk dictionary. In particular dcf_value = 10,000,000 and
comparable_value = 8,000,000 give 9,200,000 (witness). -/
theorem series_a_hybrid_value (inputs : Inputs)
    (dcf_value comparable_value equity_ratio debt_ratio : ℚ)
    (cost_of_equity cost_of_debt tax_rate : ℚ)
    (h1 : inputs.lookup "dcf_value" = some (Value.num dcf_value))
    (h2 : inputs.lookup "comparable_value" = some (Value.num comparable_value))
    (h3 : inputs.lookup "equity_ratio" = some (Value.num equity_ratio))
    (h4 : inputs.lookup "debt_ratio" = some (Value.num debt_ratio))
    (h5 : inputs.lookup "cost_of_equity" = some (Value.num cost_of_equity))
    (h6 : inputs.lookup "cost_of_debt" = some (Value.num cost_of_debt))
    (h7 : inputs.lookup "tax_rate" = some (Value.num tax_rate))
    (hmax : max dcf_value comparable_value ≠ 0) :
    ∃ r, SeriesAModel.calculate inputs = Except.ok r ∧
      r.value = dcf_value * 0.6 + comparable_value * 0.4 ∧
      r.risk_factors =
        [("capital_structure_risk", debt_ratio),
         ("cost_of_capital_risk",
            SeriesAModel.wacc_calculator equity_ratio debt_ratio cost_of_equity
              cost_of_debt tax_rate / 0.15),
         ("valuation_divergence",
            |dcf_value - comparable_value| / max dcf_value comparable_value)] := by
  have hval : BaseValuationModel.validate_inputs inputs SeriesAModel.required_fields = true := by
    simp [BaseValuationModel.validate_inputs, SeriesAModel.required_fields,
      h1, h2, h3, h4, h5, h6, h7]
  have hcalc : SeriesAModel.calculate inputs = Except.ok
      { value := SeriesAModel.hybrid_valuation dcf_value comparable_value,
        confidence := 0.9 * (1 - (debt_ratio +
          SeriesAModel.wacc_calculator equity_ratio debt_ratio cost_of_equity
            cost_of_debt tax_rate / 0.15 +
          |dcf_value - comparable_value| / max dcf_value comparable_value) / 3),
        methodology := "Series A Hybrid",
        risk_factors :=
          [("capital_structure_risk", debt_ratio),
           ("cost_of_capital_risk",
              SeriesAModel.wacc_calculator equity_ratio debt_ratio cost_of_equity
                cost_of_debt tax_rate / 0.15),
           ("valuation_divergence",
              |dcf_value - comparable_value| / max dcf_value comparable_value)] } := by
    simp [SeriesAModel.calculate, hval, h1, h2, h3, h4, h5, h6, h7, hmax]
  exact ⟨_, hcalc, by
    simp [SeriesAModel.hybrid_valuation, SeriesAModel.dcf_weight,
      SeriesAModel.comparable_weight], rfl⟩

/-- C5 witness: the amended theorem at the §8 series-A example, where
the value evaluates to 9,200,000. -/
theorem series_a_hybrid_value_witness :
    max (10000000 : ℚ) 8000000 ≠ 0 ∧
    (∃ r, SeriesAModel.calculate seriesAExample = Except.ok r ∧
       r.value = 10000000 * 0.6 + 8000000 * 0.4 ∧ r.value = 9200000) := by
  obtain ⟨r, hr, hval, -⟩ := series_a_hybrid_value seriesAExample
    10000000 8000000 0.7 0.3 0.12 0.06 0.25
    (by simp [seriesAExample, List.lookup]) (by simp [seriesAExample, List.lookup])
    (by simp [seriesAExample, List.lookup]) (by simp [seriesAExample, List.lookup])
    (by simp [seriesAExample, List.lookup]) (by simp [seriesAExample, List.lookup])
    (by simp [seriesAExample, List.lookup]) (by norm_num)
  exact ⟨by norm_num, r, hr, hval, by rw [hval]; norm_num⟩

/-! ### C9 -/

/-- C9: for every stage key outside the engine's registry and every
input mapping, `calculate_valuation` and `get_required_fields` fail with
the Unsupported-Stage error while `validate_inputs` returns false
without failing. -/
theorem engine_unknown_stage (stage : String) (inputs : Inputs)
    (h : stage ∉ ValuationEngine.stages) :
    ValuationEngine.calculate_valuation stage inputs = Except.error Err.unsupportedStage ∧
    ValuationEngine.get_required_fields stage = Except.error Err.unsupportedStage ∧
    ValuationEngine.validate_inputs stage inputs = Except.ok false := by
  simp only [ValuationEngine.stages, List.mem_cons, List.not_mem_nil, or_false,
    not_or] at h
  obtain ⟨hp, hs, ha⟩ := h
  refine ⟨?_, ?_, ?_⟩ <;>
    simp [ValuationEngine.calculate_valuation, ValuationEngine.get_required_fields,
      ValuationEngine.validate_inputs, hp, hs, ha]

/-- C9 witness: the unregistered stage key "growth" on the empty input
mapping. -/
theorem engine_unknown_stage_witness :
    "growth" ∉ ValuationEngine.stages ∧
    (ValuationEngine.calculate_valuation "growth" [] = Except.error Err.unsupportedStage ∧
     ValuationEngine.get_required_fields "growth" = Except.error Err.unsupportedStage ∧
     ValuationEngine.validate_inputs "growth" [] = Except.ok false) := by
  have h : "growth" ∉ ValuationEngine.stages := by simp [ValuationEngine.stages]
  exact ⟨h, engine_unknown_stage "growth" [] h⟩

/-! ### C6 -/

/-- C6 (counterexample): at fcf = 1,000,000, growth_rate = -0.5,
wacc = 0, region "europe" the four required fields are present and
wacc > growth_rate, so the claim as stated promises a returned value;
the code instead raises ZeroDivisionError at the `growth_risk` division
`growth_rate / wacc`. -/
theorem growth_calculate_fails_at_zero_wacc :
    ((-0.5 : ℚ) < 0) ∧
    GrowthModel.calculate growthZeroWaccExample = Except.error Err.zeroDivision ∧
    ¬ ∃ r, GrowthModel.calculate growthZeroWaccExample = Except.ok r := by
  have h : GrowthModel.calculate growthZeroWaccExample = Except.error Err.zeroDivision := by
    simp [GrowthModel.calculate, BaseValuationModel.validate_inputs,
      GrowthModel.required_fields, growthZeroWaccExample, List.lookup, pyStr,
      GrowthModel.terminal_value]
    norm_num
  refine ⟨by norm_num, h, ?_⟩
  rintro ⟨r, hr⟩
  rw [h] at hr
  exact Except.noConfusion hr

/-- C6 (amended): on every input carrying the four growth fields (the
three financial ones numeric), `calculate` fails with a Domain error
exactly when wacc ≤ growth_rate — with the Gordon-growth message — and,
whenever additionally wacc ≠ 0 and fcf ≠ -1,000,000 (the two unguarded
risk-factor divisions), returns the terminal value
fcf*(1+growth_rate)/(wacc-growth_rate) adjusted by the region's risk
multiplier (0.9 for "europe": see the witness). -/
theorem growth_domain_and_value (inputs : Inputs) (fcf growth_rate wacc : ℚ)
    (vregion : Value)
    (h1 : inputs.lookup "fcf" = some (Value.num fcf))
    (h2 : inputs.lookup "growth_rate" = some (Value.num growth_rate))
    (h3 : inputs.lookup "wacc" = some (Value.num wacc))
    (h4 : inputs.lookup "region" = some vregion) :
    ((∃ msg, GrowthModel.calculate inputs = Except.error (Err.domain msg)) ↔
       wacc ≤ growth_rate) ∧
    (wacc ≤ growth_rate → GrowthModel.calculate inputs =
       Except.error (Err.domain "WACC must be greater than growth rate")) ∧
    (growth_rate < wacc → wacc ≠ 0 → fcf ≠ -1000000 →
       ∃ r, GrowthModel.calculate inputs = Except.ok r ∧
         r.value = GrowthModel.region_risk_adjustment
           (fcf * (1 + growth_rate) / (wacc - growth_rate)) (pyLower (pyStr vregion))) := by
  have hval : BaseValuationModel.validate_inputs inputs GrowthModel.required_fields = true := by
    simp [BaseValuationModel.validate_inputs, GrowthModel.required_fields, h1, h2, h3, h4]
  by_cases hw : wacc ≤ growth_rate
  · have hc : GrowthModel.calculate inputs =
        Except.error (Err.domain "WACC must be greater than growth rate") := by
      simp [GrowthModel.calculate, hval, h1, h2, h3, h4, GrowthModel.terminal_value, hw]
    exact ⟨⟨fun _ => hw, fun _ => ⟨_, hc⟩⟩, fun _ => hc,
      fun hlt => absurd hw (not_le.mpr hlt)⟩
  · by_cases hwz : wacc = 0
    · have hc : GrowthModel.calculate inputs = Except.error Err.zeroDivision := by
        have hw0 : ¬ (0 : ℚ) ≤ growth_rate := by rw [← hwz]; exact hw
        simp [GrowthModel.calculate, hval, h1, h2, h3, h4, GrowthModel.terminal_value,
          hw0, hwz]
      refine ⟨⟨?_, fun hle => absurd hle hw⟩, fun hle => absurd hle hw,
        fun _ hnz _ => absurd hwz hnz⟩
      rintro ⟨msg, hmsg⟩
      rw [hc] at hmsg
      exact absurd (Except.error.inj hmsg) (by simp)
    · by_cases hfz : (1 : ℚ) + fcf / 1000000 = 0
      · have hc : GrowthModel.calculate inputs = Except.error Err.zeroDivision := by
          simp [GrowthModel.calculate, hval, h1, h2, h3, h4, GrowthModel.terminal_value,
            hw, hwz, hfz]
        have hffz : fcf = -1000000 := by
          field_simp at hfz
          linarith
        refine ⟨⟨?_, fun hle => absurd hle hw⟩, fun hle => absurd hle hw,
          fun _ _ hnf => absurd hffz hnf⟩
        rintro ⟨msg, hmsg⟩
        rw [hc] at hmsg
        exact absurd (Except.error.inj hmsg) (by simp)
      · have hc : GrowthModel.calculate inputs = Except.ok
            { value := GrowthModel.region_risk_adjustment
                (fcf * (1 + growth_rate) / (wacc - growth_rate)) (pyLower (pyStr vregion)),
              confidence := 0.85 * (1 - (growth_rate / wacc +
                (1 - ((GrowthModel.region_risk_data.lookup
                        (pyLower (pyStr vregion))).getD 0.8)) +
                1 / (1 + fcf / 1000000)) / 3),
              methodology := "Growth Terminal Value",
              risk_factors := [("growth_risk", growth_rate / wacc),
                ("region_risk", 1 - ((GrowthModel.region_risk_data.lookup
                        (pyLower (pyStr vregion))).getD 0.8)),
                ("scale_risk", 1 / (1 + fcf / 1000000))] } := by
          simp [GrowthModel.calculate, hval, h1, h2, h3, h4, GrowthModel.terminal_value,
            hw, hwz, hfz]
        refine ⟨⟨?_, fun hle => absurd hle hw⟩, fun hle => absurd hle hw,
          fun _ _ _ => ⟨_, hc, rfl⟩⟩
        rintro ⟨msg, hmsg⟩
        rw [hc] at hmsg
        exact Except.noConfusion hmsg

/-- C6 witness: the §8 growth example (fcf = 1,000,000,
growth_rate = 0.03, wacc = 0.10, region "europe"): the preconditions of
the amended theorem hold, the returned value is the Gordon terminal
value times the europe multiplier 0.9, i.e. 92,700,000/7, within 0.01
of 13,242,857.14. -/
theorem growth_domain_and_value_witness :
    ((0.03 : ℚ) < 0.1 ∧ (0.1 : ℚ) ≠ 0 ∧ (1000000 : ℚ) ≠ -1000000) ∧
    (∃ r, GrowthModel.calculate growthExample = Except.ok r ∧
       r.value = GrowthModel.region_risk_adjustment
         (1000000 * (1 + 0.03) / (0.1 - 0.03)) (pyLower (pyStr (Value.str "europe")))) ∧
    GrowthModel.region_risk_adjustment (1000000 * (1 + 0.03) / (0.1 - 0.03))
        (pyLower (pyStr (Value.str "europe"))) = 92700000 / 7 ∧
    |(92700000 / 7 : ℚ) - 13242857.14| < 0.01 := by
  refine ⟨⟨by norm_num, by norm_num, by norm_num⟩, ?_, ?_,
    by rw [abs_lt]; exact ⟨by norm_num, by norm_num⟩⟩
  · exact (growth_domain_and_value growthExample 1000000 0.03 0.1 (Value.str "europe")
      (by simp [growthExample, List.lookup]) (by simp [growthExample, List.lookup])
      (by simp [growthExample, List.lookup]) (by simp [growthExample, List.lookup])).2.2
      (by norm_num) (by norm_num) (by norm_num)
  · simp [GrowthModel.region_risk_adjustment, GrowthModel.region_risk_data, pyStr,
      (by decide : pyLower "europe" = "europe"), List.lookup]
    norm_num
